import Mathlib

/-!
Shallow embedding of the bill-extraction service in `src/main.py`
(FastAPI endpoint `extract_bill_data`, helpers `download_image` and
`get_gemini_extraction`, pydantic models `BillItem`, `PageLineItems`,
`ExtractionData`, `APIResponse`).

Modelling conventions:
* the raw LLM response (output of `json.loads`) is a `Json` tree;
  `Json.obj` represents a parsed Python dict, whose keys are unique after
  parsing — `jLookup` keeps the last binding, matching `json.loads`
  duplicate-key behaviour;
* Python numbers are embedded as rationals (`Json.int` for ints,
  `Json.num` for floats); float arithmetic is idealized as exact rational
  arithmetic;
* exceptions are an explicit `PyErr` value threaded through `Except`;
  the exception message texts approximate CPython's (quote characters are
  omitted) — only their shape and non-emptiness are relied on;
* `float(x)` string parsing covers Python's decimal-literal fragment
  (optional sign, digits with at most one dot, optional exponent); the
  `inf`/`nan`/underscore forms are outside the rational embedding;
* `str(x)` is exact on strings and ints (the cases the pipeline and the
  claims exercise); its renderings of floats and containers are
  approximations no theorem depends on.
-/

/-- A JSON-like Python value, result of `json.loads`. -/
inductive Json where
  | null : Json
  | bool (b : Bool) : Json
  | int (n : ℤ) : Json
  | num (q : ℚ) : Json
  | str (s : String) : Json
  | arr (xs : List Json) : Json
  | obj (kvs : List (String × Json)) : Json

/-- Python type name, as it appears in exception messages. -/
def pyTypeName : Json → String
  | .null => "NoneType"
  | .bool _ => "bool"
  | .int _ => "int"
  | .num _ => "float"
  | .str _ => "str"
  | .arr _ => "list"
  | .obj _ => "dict"

/-- The exceptions the pipeline can raise while post-processing the raw
tree: `AttributeError` from `.get` on a non-dict, `TypeError` from
iterating a non-iterable or `float()` on an unsupported type,
`ValueError` from `float()` on a non-numeric string, and pydantic
validation failure on a non-string `item_name`. -/
inductive PyErr where
  | attributeError (tyName : String)
  | typeErrorNotIterable (tyName : String)
  | typeErrorFloat (tyName : String)
  | valueErrorFloat (s : String)
  | validationError (tyName : String)
deriving DecidableEq

/-- The `str(e)` text of an exception (approximating CPython's wording;
every message carries a non-empty fixed part). -/
def PyErr.msg : PyErr → String
  | .attributeError t => t ++ " object has no attribute get"
  | .typeErrorNotIterable t => t ++ " object is not iterable"
  | .typeErrorFloat t =>
      "float argument must be a string or a real number, not " ++ t
  | .valueErrorFloat s => "could not convert string to float: " ++ s
  | .validationError t =>
      "validation error for BillItem: item_name must be a string, got " ++ t

/-- Lookup in a parsed dict: `json.loads` keeps the last binding of a
duplicated key, so the fold keeps the last match. -/
def jLookup (kvs : List (String × Json)) (k : String) : Option Json :=
  kvs.foldl (fun acc p => if p.1 = k then some p.2 else acc) none

/-- Python `x.get(k, d)`: defined for dicts only; any other receiver
raises `AttributeError`. -/
def pyGet (j : Json) (k : String) (d : Json) : Except PyErr Json :=
  match j with
  | .obj kvs => .ok ((jLookup kvs k).getD d)
  | _ => .error (.attributeError (pyTypeName j))

/-- Python `for x in j`: lists yield elements, strings yield one-character
strings, dicts yield their keys; `None`, bools and numbers raise
`TypeError`. -/
def pyIter (j : Json) : Except PyErr (List Json) :=
  match j with
  | .arr xs => .ok xs
  | .str s => .ok (s.toList.map fun c => .str c.toString)
  | .obj kvs => .ok (kvs.map fun p => .str p.1)
  | _ => .error (.typeErrorNotIterable (pyTypeName j))

/-- Digits of a non-empty all-digit character list, as a natural number. -/
def decDigits? (cs : List Char) : Option ℕ :=
  if cs.isEmpty then none
  else if cs.all Char.isDigit then
    some (cs.foldl (fun a c => a * 10 + (c.toNat - 48)) 0)
  else none

/-- Value of a possibly-empty all-digit character list (0 when empty). -/
def digitsVal (cs : List Char) : ℕ :=
  cs.foldl (fun a c => a * 10 + (c.toNat - 48)) 0

/-- Mantissa of a Python float literal: digits with at most one dot, at
least one digit overall (`"12"`, `"12."`, `".5"`, `"12.5"`). -/
def parseMantissa (cs : List Char) : Option ℚ :=
  match cs.splitOn '.' with
  | [ip] => (decDigits? ip).map fun n => (n : ℚ)
  | [ip, fp] =>
      if ip.isEmpty && fp.isEmpty then none
      else if ip.all Char.isDigit && fp.all Char.isDigit then
        some ((digitsVal ip : ℚ) + (digitsVal fp : ℚ) / 10 ^ fp.length)
      else none
  | _ => none

/-- Exponent part after `e`: optional sign then non-empty digits. -/
def parseExpPart (cs : List Char) : Option ℤ :=
  match cs with
  | '+' :: r => (decDigits? r).map fun n => (n : ℤ)
  | '-' :: r => (decDigits? r).map fun n => -(n : ℤ)
  | r => (decDigits? r).map fun n => (n : ℤ)

/-- ASCII whitespace characters stripped by `float(str)`. -/
def isPyWs (c : Char) : Bool :=
  c = ' ' || c = '\t' || c = '\n' || c = '\r'

/-- Python `float(s)` on a string: strip whitespace, optional sign,
decimal mantissa, optional exponent.  Returns `none` when Python raises
`ValueError`. -/
def parsePyFloat (s : String) : Option ℚ :=
  let cs := ((s.toList.dropWhile isPyWs).reverse.dropWhile isPyWs).reverse
  let cs := cs.map Char.toLower
  let signVal : ℚ × List Char :=
    match cs with
    | '+' :: r => (1, r)
    | '-' :: r => (-1, r)
    | r => (1, r)
  match signVal.2.splitOn 'e' with
  | [m] => (parseMantissa m).map fun q => signVal.1 * q
  | [m, ex] => do
      let mv ← parseMantissa m
      let ev ← parseExpPart ex
      pure (signVal.1 * mv * (10 : ℚ) ^ ev)
  | _ => none

/-- Python `float(x)`: ints and floats pass through, bools coerce to 0/1,
strings are parsed, everything else raises `TypeError`. -/
def pyFloat (j : Json) : Except PyErr ℚ :=
  match j with
  | .int n => .ok (n : ℚ)
  | .num q => .ok q
  | .bool b => .ok (if b then 1 else 0)
  | .str s =>
      match parsePyFloat s with
      | some q => .ok q
      | none => .error (.valueErrorFloat s)
  | _ => .error (.typeErrorFloat (pyTypeName j))

/-- Python `str(x)`.  Exact on strings, ints, bools and `None`; the
renderings of floats and containers are placeholders no theorem uses. -/
def pyStr (j : Json) : String :=
  match j with
  | .str s => s
  | .int n => toString n
  | .bool b => if b then "True" else "False"
  | .null => "None"
  | .num q => if q.den = 1 then toString q.num ++ ".0" else toString q
  | .arr _ => "[...]"
  | .obj _ => "\x7b...\x7d"

/-- Pydantic validation of the `item_name : str` field: only a string is
accepted (a `None` or non-string value raises a `ValidationError`). -/
def pydanticStr (j : Json) : Except PyErr String :=
  match j with
  | .str s => .ok s
  | _ => .error (.validationError (pyTypeName j))

/-- Pydantic model `BillItem` after construction.  The source always
passes all four fields ( `item_rate` and `item_quantity` have defaults in
the class but every constructor call supplies them), so they are plain
fields here. -/
structure BillItem where
  item_name : String
  item_amount : ℚ
  item_rate : ℚ
  item_quantity : ℚ
deriving DecidableEq

/-- Pydantic model `PageLineItems`. -/
structure PageLineItems where
  page_no : String
  bill_items : List BillItem
deriving DecidableEq

/-- Pydantic model `ExtractionData`. -/
structure ExtractionData where
  pagewise_line_items : List PageLineItems
  total_item_count : ℕ
  reconciled_amount : ℚ
deriving DecidableEq

/-- Pydantic model `APIResponse`, the response envelope. -/
structure APIResponse where
  is_success : Bool
  data : Option ExtractionData
  error : Option String
deriving DecidableEq

/-- Sequential effectful map, mirroring a Python `for` loop that appends
to a list: the first exception aborts the whole loop. -/
def mapE (f : α → Except PyErr β) : List α → Except PyErr (List β)
  | [] => .ok []
  | a :: as => do
      let b ← f a
      let bs ← mapE f as
      pure (b :: bs)

/-- One item sanitization step of `extract_bill_data` (src/main.py
lines 139-144): `.get` defaults for absent keys, `float` coercions in
Python argument order, then pydantic validation of `item_name`. -/
def sanitizeBillItem (item : Json) : Except PyErr BillItem := do
  let nameJ ← pyGet item "item_name" (.str "Unknown")
  let amtJ ← pyGet item "item_amount" (.int 0)
  let amt ← pyFloat amtJ
  let rateJ ← pyGet item "item_rate" (.int 0)
  let rate ← pyFloat rateJ
  let qtyJ ← pyGet item "item_quantity" (.int 1)
  let qty ← pyFloat qtyJ
  let name ← pydanticStr nameJ
  pure ⟨name, amt, rate, qty⟩

/-- One page of the loop in `extract_bill_data` (src/main.py lines
135-151): sanitize each entry of `bill_items`, then build the
`PageLineItems` with `str(page.get("page_no", "1"))`. -/
def processPage (page : Json) : Except PyErr PageLineItems := do
  let itemsJ ← pyGet page "bill_items" (.arr [])
  let items ← pyIter itemsJ
  let bs ← mapE sanitizeBillItem items
  let pn ← pyGet page "page_no" (.str "1")
  pure ⟨pyStr pn, bs⟩

/-- Round-half-to-even to an integer (the rounding of Python `round`,
idealized over exact rationals). -/
def roundHalfEven (q : ℚ) : ℤ :=
  let f : ℤ := q.num.fdiv q.den
  let r : ℚ := q - (f : ℚ)
  if r < 1 / 2 then f
  else if 1 / 2 < r then f + 1
  else if f % 2 = 0 then f else f + 1

/-- Python `round(x, 2)`, idealized over exact rationals. -/
def round2 (q : ℚ) : ℚ := (roundHalfEven (q * 100) : ℚ) / 100

/-- The post-processing and reconciliation logic of `extract_bill_data`
(src/main.py lines 131-167): iterate `raw_data.get("pagewise_line_items",
[])`, sanitize every item, count the flat list and sum its amounts. -/
def reconcile (raw : Json) : Except PyErr ExtractionData := do
  let pagesJ ← pyGet raw "pagewise_line_items" (.arr [])
  let pages ← pyIter pagesJ
  let ps ← mapE processPage pages
  let allItems := (ps.map PageLineItems.bill_items).flatten
  pure ⟨ps, allItems.length, round2 ((allItems.map BillItem.item_amount).sum)⟩

/-- Decoded image, opaque to the reconciliation logic. -/
structure ImageBuf where
  bytes : List ℕ
deriving DecidableEq

/-- FastAPI `HTTPException` with its status code and detail text. -/
structure HTTPExc where
  status : ℕ
  detail : String
deriving DecidableEq

/-- `download_image` (src/main.py lines 55-64): the outcome of the
network fetch plus decode is an oracle argument; any failure is wrapped
into an `HTTPException(400, "Failed to download image: " + str(e))`. -/
def download_image (fetchOutcome : Except String ImageBuf) :
    Except HTTPExc ImageBuf :=
  match fetchOutcome with
  | .ok img => .ok img
  | .error cause => .error ⟨400, "Failed to download image: " ++ cause⟩

/-- `get_gemini_extraction` (src/main.py lines 66-110): the model call
and `json.loads` outcome is an oracle argument; any failure becomes
`HTTPException(500, "Failed to process image with AI model.")`. -/
def get_gemini_extraction (llmOutcome : Except String Json) :
    Except HTTPExc Json :=
  match llmOutcome with
  | .ok j => .ok j
  | .error _ => .error ⟨500, "Failed to process image with AI model."⟩

/-- The endpoint `extract_bill_data` (src/main.py lines 114-174): run the
pipeline; an `HTTPException` is caught into `APIResponse(is_success=False,
error=he.detail)`, any other exception into `error=str(e)`. -/
def extract_bill_data (fetchOutcome : Except String ImageBuf)
    (llmOutcome : Except String Json) : APIResponse :=
  match download_image fetchOutcome with
  | .error he => ⟨false, none, some he.detail⟩
  | .ok _ =>
      match get_gemini_extraction llmOutcome with
      | .error he => ⟨false, none, some he.detail⟩
      | .ok raw =>
          match reconcile raw with
          | .ok d => ⟨true, some d, none⟩
          | .error e => ⟨false, none, some e.msg⟩

/-- Encoding of an already-sanitized item back into the JSON shape the
prompt requests (all four fields present, correctly typed). -/
def encodeItem (b : BillItem) : Json :=
  .obj [("item_name", .str b.item_name), ("item_amount", .num b.item_amount),
        ("item_rate", .num b.item_rate), ("item_quantity", .num b.item_quantity)]

/-- Encoding of a well-formed page: text `page_no`, list `bill_items`. -/
def encodePage (p : PageLineItems) : Json :=
  .obj [("page_no", .str p.page_no),
        ("bill_items", .arr (p.bill_items.map encodeItem))]

/-- Encoding of a well-formed raw extraction tree. -/
def encodeRaw (ps : List PageLineItems) : Json :=
  .obj [("pagewise_line_items", .arr (ps.map encodePage))]

/-- The four item field keys of the requested JSON shape. -/
def itemFields : List String :=
  ["item_name", "item_amount", "item_rate", "item_quantity"]

/-- Whether a pipeline step completed without raising. -/
def exOk : Except PyErr α → Bool
  | .ok _ => true
  | .error _ => false

/-! ## Basic lemmas about the embedding -/

@[simp]
theorem exOk_ok (a : α) : exOk (Except.ok a : Except PyErr α) = true := rfl

@[simp]
theorem exOk_error (e : PyErr) : exOk (Except.error e : Except PyErr α) = false := rfl

@[simp]
theorem pyErr_ok_bind (a : α) (f : α → Except PyErr β) :
    (Except.ok a : Except PyErr α) >>= f = f a := rfl

@[simp]
theorem pyErr_error_bind (e : PyErr) (f : α → Except PyErr β) :
    (Except.error e : Except PyErr α) >>= f = Except.error e := rfl

theorem string_ne_empty_of_length_pos {s : String} (h : 0 < s.length) : s ≠ "" := by
  intro hs
  rw [hs] at h
  simp [String.length] at h

theorem append_ne_empty_left (a b : String) (h : a ≠ "") : a ++ b ≠ "" := by
  apply string_ne_empty_of_length_pos
  rw [String.length_append]
  rcases Nat.eq_zero_or_pos a.length with h0 | hpos
  · exact absurd (by cases a with | mk l => cases l with
      | nil => rfl
      | cons c cs => simp [String.length] at h0) h
  · omega

theorem append_ne_empty_right (a b : String) (h : b ≠ "") : a ++ b ≠ "" := by
  apply string_ne_empty_of_length_pos
  rw [String.length_append]
  rcases Nat.eq_zero_or_pos b.length with h0 | hpos
  · exact absurd (by cases b with | mk l => cases l with
      | nil => rfl
      | cons c cs => simp [String.length] at h0) h
  · omega

/-- Every exception the pipeline can raise carries a non-empty message. -/
theorem pyErr_msg_ne_empty (e : PyErr) : e.msg ≠ "" := by
  cases e with
  | attributeError t => exact append_ne_empty_right _ _ (by decide)
  | typeErrorNotIterable t => exact append_ne_empty_right _ _ (by decide)
  | typeErrorFloat t => exact append_ne_empty_left _ _ (by decide)
  | valueErrorFloat s => exact append_ne_empty_left _ _ (by decide)
  | validationError t => exact append_ne_empty_left _ _ (by decide)

/-! ## Claim theorems -/

/-- C7: an item whose `item_rate` and `item_quantity` keys are entirely
absent is sanitized to `rate = 0`, `quantity = 1` and kept; on the
Scenario B input the whole reconciliation yields one item and
`reconciled_amount = 10`. -/
theorem missing_rate_quantity_defaulted :
    (∀ (name : String) (amt : ℤ),
      sanitizeBillItem (.obj [("item_name", .str name), ("item_amount", .int amt)]) =
        .ok ⟨name, (amt : ℚ), 0, 1⟩) ∧
    reconcile (.obj [("pagewise_line_items", .arr [
      .obj [("page_no", .str "1"), ("bill_items", .arr [
        .obj [("item_name", .str "Bandage"), ("item_amount", .int 10)]])]])]) =
      .ok ⟨[⟨"1", [⟨"Bandage", 10, 0, 1⟩]⟩], 1, 10⟩ := by
  constructor
  · intro name amt
    with_unfolding_all rfl
  · with_unfolding_all rfl

/-- C5: in every response envelope the `data` field is populated exactly
when the success flag is true and the `error` field exactly when it is
false. -/
theorem envelope_exactly_one_populated :
    ∀ (fetchOutcome : Except String ImageBuf) (llmOutcome : Except String Json),
      (extract_bill_data fetchOutcome llmOutcome).data.isSome
          = (extract_bill_data fetchOutcome llmOutcome).is_success ∧
      (extract_bill_data fetchOutcome llmOutcome).error.isSome
          = !(extract_bill_data fetchOutcome llmOutcome).is_success := by
  intro f l
  cases f with
  | error c => simp [extract_bill_data, download_image]
  | ok img =>
    cases l with
    | error c => simp [extract_bill_data, download_image, get_gemini_extraction]
    | ok raw =>
      cases h : reconcile raw <;>
        simp [extract_bill_data, download_image, get_gemini_extraction, h]

/-- C6: a failed document fetch is reported as an envelope with the
success flag false and a non-empty error text naming the failure, an
uncategorized exception during reconciliation is reported the same way
with the exception message, and a failed model call is reported with a
fixed non-empty text — never an unhandled fault. -/
theorem failures_reported_in_envelope :
    (∀ (cause : String) (llmOutcome : Except String Json),
        extract_bill_data (.error cause) llmOutcome =
          ⟨false, none, some ("Failed to download image: " ++ cause)⟩ ∧
        ("Failed to download image: " ++ cause) ≠ "") ∧
    (∀ (img : ImageBuf) (raw : Json) (e : PyErr), reconcile raw = .error e →
        extract_bill_data (.ok img) (.ok raw) = ⟨false, none, some e.msg⟩ ∧
        e.msg ≠ "") ∧
    (∀ (img : ImageBuf) (cause : String),
        extract_bill_data (.ok img) (.error cause) =
          ⟨false, none, some "Failed to process image with AI model."⟩ ∧
        ("Failed to process image with AI model." : String) ≠ "") := by
  refine ⟨fun cause llm => ⟨rfl, append_ne_empty_left _ _ (by decide)⟩, ?_, ?_⟩
  · intro img raw e h
    exact ⟨by simp [extract_bill_data, download_image, get_gemini_extraction, h],
           pyErr_msg_ne_empty e⟩
  · intro img cause
    exact ⟨rfl, by decide⟩

/-- Witness for C6: on a non-dict raw tree the reconciliation raises
`AttributeError` and the envelope reports it with a non-empty error. -/
theorem failures_reported_in_envelope_witness :
    extract_bill_data (.ok ⟨[]⟩) (.ok .null) =
      ⟨false, none, some (PyErr.attributeError "NoneType").msg⟩ ∧
    (PyErr.attributeError "NoneType").msg ≠ "" :=
  failures_reported_in_envelope.2.1 ⟨[]⟩ .null (.attributeError "NoneType")
    (by with_unfolding_all rfl)

/-- C3 counterexample: a `pagewise_line_items` key that is present but
bound to `null` (a non-sequence) does not yield an empty result — the
iteration raises `TypeError` and the whole request fails. -/
theorem null_pagewise_fails_request :
    reconcile (.obj [("pagewise_line_items", .null)]) =
      .error (.typeErrorNotIterable "NoneType") ∧
    (extract_bill_data (.ok ⟨[]⟩)
        (.ok (.obj [("pagewise_line_items", .null)]))).is_success = false := by
  constructor <;> with_unfolding_all rfl

/-- C3 amended: an absent `pagewise_line_items` key yields the empty
result and an absent `bill_items` key yields an empty page (with the
`page_no` default), but a present non-sequence value raises instead of
being treated as empty. -/
theorem absent_keys_yield_empty :
    (∀ kvs : List (String × Json), jLookup kvs "pagewise_line_items" = none →
        reconcile (.obj kvs) = .ok ⟨[], 0, 0⟩) ∧
    (∀ kvs : List (String × Json), jLookup kvs "bill_items" = none →
        jLookup kvs "page_no" = none →
        processPage (.obj kvs) = .ok ⟨"1", []⟩) ∧
    exOk (reconcile (.obj [("pagewise_line_items", .null)])) = false := by
  refine ⟨?_, ?_, by with_unfolding_all rfl⟩
  · intro kvs h
    have hget : pyGet (.obj kvs) "pagewise_line_items" (.arr []) = .ok (.arr []) := by
      simp [pyGet, h]
    simp only [reconcile, hget, pyErr_ok_bind]
    with_unfolding_all rfl
  · intro kvs h1 h2
    have hget : pyGet (.obj kvs) "bill_items" (.arr []) = .ok (.arr []) := by
      simp [pyGet, h1]
    have hget2 : pyGet (.obj kvs) "page_no" (.str "1") = .ok (.str "1") := by
      simp [pyGet, h2]
    simp only [processPage, hget, hget2, pyErr_ok_bind]
    with_unfolding_all rfl

/-- Witness for C3 (amended): the empty dict has neither key and
reconciles to the empty result; a page with neither key becomes the
default empty page. -/
theorem absent_keys_yield_empty_witness :
    reconcile (.obj []) = .ok ⟨[], 0, 0⟩ ∧
    processPage (.obj []) = .ok ⟨"1", []⟩ :=
  ⟨absent_keys_yield_empty.1 [] rfl, absent_keys_yield_empty.2.1 [] rfl rfl⟩

/-- C2 counterexample: an item whose `item_amount` is present but not
numerically parseable is not kept with a defaulted amount — `float`
raises `ValueError` and the whole request fails, although the root is a
mapping. -/
theorem unparseable_amount_fails_request :
    reconcile (.obj [("pagewise_line_items", .arr [
      .obj [("page_no", .str "1"), ("bill_items", .arr [
        .obj [("item_name", .str "X"), ("item_amount", .str "abc")]])]])]) =
      .error (.valueErrorFloat "abc") ∧
    (extract_bill_data (.ok ⟨[]⟩) (.ok (.obj [("pagewise_line_items", .arr [
      .obj [("page_no", .str "1"), ("bill_items", .arr [
        .obj [("item_name", .str "X"),
              ("item_amount", .str "abc")]])]])]))).is_success = false := by
  constructor <;> with_unfolding_all rfl

/-- C2 amended: a field default is applied only when the key is absent —
an item with all four keys missing is kept fully defaulted — while a key
that is present with a non-parseable string makes the `float` coercion
raise, failing the whole request rather than defaulting the field. -/
theorem field_defaults_only_when_absent :
    (∀ s : String, parsePyFloat s = none →
        sanitizeBillItem (.obj [("item_name", .str "X"), ("item_amount", .str s)]) =
          .error (.valueErrorFloat s)) ∧
    (∀ kvs : List (String × Json), jLookup kvs "item_name" = none →
        jLookup kvs "item_amount" = none → jLookup kvs "item_rate" = none →
        jLookup kvs "item_quantity" = none →
        sanitizeBillItem (.obj kvs) = .ok ⟨"Unknown", 0, 0, 1⟩) := by
  constructor
  · intro s h
    simp only [sanitizeBillItem, pyGet, jLookup, List.foldl, pyErr_ok_bind]
    simp only [show (("item_name", Json.str "X").1 = "item_name") = True by simp,
      show (("item_name", Json.str "X").1 = "item_amount") = False by simp,
      show (("item_amount", Json.str s).1 = "item_amount") = True by simp]
    simp [pyFloat, h]
  · intro kvs h1 h2 h3 h4
    have g1 : pyGet (.obj kvs) "item_name" (.str "Unknown") = .ok (.str "Unknown") := by
      simp [pyGet, h1]
    have g2 : pyGet (.obj kvs) "item_amount" (.int 0) = .ok (.int 0) := by
      simp [pyGet, h2]
    have g3 : pyGet (.obj kvs) "item_rate" (.int 0) = .ok (.int 0) := by
      simp [pyGet, h3]
    have g4 : pyGet (.obj kvs) "item_quantity" (.int 1) = .ok (.int 1) := by
      simp [pyGet, h4]
    simp only [sanitizeBillItem, g1, g2, g3, g4, pyErr_ok_bind]
    with_unfolding_all rfl

/-- Witness for C2 (amended): the string `"abc"` does not parse, so a
present `item_amount = "abc"` raises, while the empty item dict is kept
with every field defaulted. -/
theorem field_defaults_only_when_absent_witness :
    sanitizeBillItem (.obj [("item_name", .str "X"), ("item_amount", .str "abc")]) =
      .error (.valueErrorFloat "abc") ∧
    sanitizeBillItem (.obj []) = .ok ⟨"Unknown", 0, 0, 1⟩ :=
  ⟨field_defaults_only_when_absent.1 "abc" (by with_unfolding_all rfl),
   field_defaults_only_when_absent.2 [] rfl rfl rfl rfl⟩

/-- Every successful reconciliation result has the derived shape: its
count is the length of the flat item list and its amount the rounded sum
of the flat item amounts. -/
theorem reconcile_ok_shape (raw : Json) (d : ExtractionData)
    (h : reconcile raw = .ok d) :
    d = ⟨d.pagewise_line_items,
         ((d.pagewise_line_items.map PageLineItems.bill_items).flatten).length,
         round2 ((((d.pagewise_line_items.map PageLineItems.bill_items).flatten).map
            BillItem.item_amount).sum)⟩ := by
  simp only [reconcile] at h
  cases h1 : pyGet raw "pagewise_line_items" (.arr []) with
  | error e => rw [h1] at h; simp at h
  | ok pagesJ =>
    rw [h1] at h
    simp only [pyErr_ok_bind] at h
    cases h2 : pyIter pagesJ with
    | error e => rw [h2] at h; simp at h
    | ok pages =>
      rw [h2] at h
      simp only [pyErr_ok_bind] at h
      cases h3 : mapE processPage pages with
      | error e => rw [h3] at h; simp at h
      | ok ps =>
        rw [h3] at h
        simp only [pyErr_ok_bind, pure, Except.pure, Except.ok.injEq] at h
        subst h
        rfl

/-- C1: in every successful response the `reconciled_amount` is the
2-decimal rounding of the sum of the sanitized `item_amount` of every
item across all pages, and the computation never reads a total field of
the input tree: adding a `grand_total` binding to the root leaves the
whole reconciliation unchanged. -/
theorem reconciled_amount_eq_item_sum :
    (∀ (raw : Json) (d : ExtractionData), reconcile raw = .ok d →
        d.reconciled_amount =
          round2 ((d.pagewise_line_items.map
            (fun p => (p.bill_items.map BillItem.item_amount).sum)).sum)) ∧
    (∀ (t : Json) (kvs : List (String × Json)),
        reconcile (.obj (("grand_total", t) :: kvs)) = reconcile (.obj kvs)) := by
  constructor
  · intro raw d h
    have hs := congrArg ExtractionData.reconciled_amount (reconcile_ok_shape raw d h)
    simp only [] at hs
    rw [hs]
    congr 1
    rw [List.map_flatten, List.sum_flatten, List.map_map, List.map_map]
    rfl
  · intro t kvs
    have hl : jLookup (("grand_total", t) :: kvs) "pagewise_line_items" =
        jLookup kvs "pagewise_line_items" := by
      simp [jLookup]
    simp only [reconcile, pyGet, hl]

/-- Witness for C1: the Scenario A input reconciles successfully and its
amount is the rounded per-page sum. -/
theorem reconciled_amount_eq_item_sum_witness :
    (ExtractionData.mk [⟨"1", [⟨"Paracetamol", 50, 25, 2⟩]⟩] 1 50).reconciled_amount =
      round2 (((ExtractionData.mk [⟨"1", [⟨"Paracetamol", 50, 25, 2⟩]⟩] 1
          50).pagewise_line_items.map
        (fun p => (p.bill_items.map BillItem.item_amount).sum)).sum) :=
  reconciled_amount_eq_item_sum.1
    (.obj [("pagewise_line_items", .arr [
      .obj [("page_no", .str "1"), ("bill_items", .arr [
        .obj [("item_name", .str "Paracetamol"), ("item_amount", .num 50),
              ("item_rate", .num 25), ("item_quantity", .int 2)]])]])])
    ⟨[⟨"1", [⟨"Paracetamol", 50, 25, 2⟩]⟩], 1, 50⟩
    (by with_unfolding_all rfl)

/-- C4: in every successful response the `total_item_count` is the total
number of sanitized items across all pages. -/
theorem total_item_count_eq_flat_length :
    ∀ (raw : Json) (d : ExtractionData), reconcile raw = .ok d →
      d.total_item_count =
        (d.pagewise_line_items.map (fun p => p.bill_items.length)).sum := by
  intro raw d h
  have hs := congrArg ExtractionData.total_item_count (reconcile_ok_shape raw d h)
  simp only [] at hs
  rw [hs]
  rw [List.length_flatten, List.map_map]
  rfl

/-- Witness for C4: a two-page input whose second page holds a fully
defaulted item (an empty item dict); both items are counted. -/
theorem total_item_count_eq_flat_length_witness :
    (ExtractionData.mk
        [⟨"1", [⟨"A", 3, 0, 1⟩]⟩, ⟨"2", [⟨"Unknown", 0, 0, 1⟩]⟩] 2
        3).total_item_count =
      ((ExtractionData.mk
        [⟨"1", [⟨"A", 3, 0, 1⟩]⟩, ⟨"2", [⟨"Unknown", 0, 0, 1⟩]⟩] 2
        3).pagewise_line_items.map (fun p => p.bill_items.length)).sum :=
  total_item_count_eq_flat_length
    (.obj [("pagewise_line_items", .arr [
      .obj [("page_no", .str "1"), ("bill_items", .arr [
        .obj [("item_name", .str "A"), ("item_amount", .int 3)]])],
      .obj [("page_no", .str "2"), ("bill_items", .arr [.obj []])]])])
    ⟨[⟨"1", [⟨"A", 3, 0, 1⟩]⟩, ⟨"2", [⟨"Unknown", 0, 0, 1⟩]⟩], 2, 3⟩
    (by with_unfolding_all rfl)

/-- Sanitizing the encoding of an already-sanitized item gives it back. -/
theorem sanitize_encode (b : BillItem) : sanitizeBillItem (encodeItem b) = .ok b := by
  with_unfolding_all rfl

/-- Sanitizing an encoded item list gives the list back. -/
theorem mapE_sanitize_encode (l : List BillItem) :
    mapE sanitizeBillItem (l.map encodeItem) = .ok l := by
  induction l with
  | nil => rfl
  | cons b bs ih => simp [mapE, sanitize_encode, ih]

/-- Processing the encoding of a well-formed page gives the page back. -/
theorem processPage_encode (p : PageLineItems) : processPage (encodePage p) = .ok p := by
  have hget : pyGet (encodePage p) "bill_items" (.arr []) =
      .ok (.arr (p.bill_items.map encodeItem)) := by with_unfolding_all rfl
  have hpn : pyGet (encodePage p) "page_no" (.str "1") = .ok (.str p.page_no) := by
    with_unfolding_all rfl
  simp only [processPage, hget, pyErr_ok_bind, pyIter, mapE_sanitize_encode, hpn]
  rfl

/-- Processing an encoded page list gives the list back. -/
theorem mapE_process_encode (ps : List PageLineItems) :
    mapE processPage (ps.map encodePage) = .ok ps := by
  induction ps with
  | nil => rfl
  | cons p rest ih => simp [mapE, processPage_encode, ih]

/-- C8: reconciling an already-well-formed raw tree (every page a text
`page_no` with a `bill_items` list, every item all four fields present
and correctly typed) returns exactly the same pages and items, unchanged
and in order, together with the derived count and rounded sum. -/
theorem wellformed_reconcile_identity :
    ∀ ps : List PageLineItems,
      reconcile (encodeRaw ps) =
        .ok ⟨ps, ((ps.map PageLineItems.bill_items).flatten).length,
             round2 ((((ps.map PageLineItems.bill_items).flatten).map
                BillItem.item_amount).sum)⟩ := by
  intro ps
  have hget : pyGet (encodeRaw ps) "pagewise_line_items" (.arr []) =
      .ok (.arr (ps.map encodePage)) := by with_unfolding_all rfl
  simp only [reconcile, hget, pyErr_ok_bind, pyIter, mapE_process_encode]
  rfl

/-- A loop over a list aborts when any element raises. -/
theorem mapE_exOk_false_of_mem (f : α → Except PyErr β) (x : α)
    (h : exOk (f x) = false) :
    ∀ xs : List α, x ∈ xs → exOk (mapE f xs) = false := by
  intro xs
  induction xs with
  | nil => intro hx; cases hx
  | cons a as ih =>
    intro hx
    rcases List.mem_cons.mp hx with rfl | hmem
    · cases hfa : f x with
      | error e => simp [mapE, hfa]
      | ok b => rw [hfa] at h; simp at h
    · cases hfa : f a with
      | error e => simp [mapE, hfa]
      | ok b =>
        have hrec := ih hmem
        cases hrest : mapE f as with
        | error e => simp [mapE, hfa, hrest]
        | ok bs => rw [hrest] at hrec; simp at hrec

/-- An item dict binding any of the four fields to `null` raises during
sanitization: `float(None)` raises `TypeError` for the numeric fields and
pydantic rejects a `None` name — a present `null` is not defaulted. -/
theorem sanitize_null_field (itemKvs : List (String × Json)) (k : String)
    (hk : k ∈ itemFields) (h : jLookup itemKvs k = some .null) :
    exOk (sanitizeBillItem (.obj itemKvs)) = false := by
  have hk4 : k = "item_name" ∨ k = "item_amount" ∨ k = "item_rate" ∨
      k = "item_quantity" := by simpa [itemFields] using hk
  rcases hk4 with rfl | rfl | rfl | rfl
  · have g : pyGet (.obj itemKvs) "item_name" (.str "Unknown") = .ok .null := by
      simp [pyGet, h]
    simp only [sanitizeBillItem, g, pyGet, pyErr_ok_bind]
    cases ha : pyFloat ((jLookup itemKvs "item_amount").getD (.int 0)) with
    | error e => simp [ha]
    | ok va =>
      cases hr : pyFloat ((jLookup itemKvs "item_rate").getD (.int 0)) with
      | error e => simp [ha, hr]
      | ok vr =>
        cases hq : pyFloat ((jLookup itemKvs "item_quantity").getD (.int 1)) with
        | error e => simp [ha, hr, hq]
        | ok vq => simp [ha, hr, hq, h, pydanticStr, Except.map]
  · have g : pyGet (.obj itemKvs) "item_amount" (.int 0) = .ok .null := by
      simp [pyGet, h]
    simp only [sanitizeBillItem, g, pyGet, pyErr_ok_bind]
    simp [h, pyFloat]
  · have g : pyGet (.obj itemKvs) "item_rate" (.int 0) = .ok .null := by
      simp [pyGet, h]
    simp only [sanitizeBillItem, g, pyGet, pyErr_ok_bind]
    cases ha : pyFloat ((jLookup itemKvs "item_amount").getD (.int 0)) with
    | error e => simp [ha]
    | ok va => simp [ha, h, pyFloat]
  · have g : pyGet (.obj itemKvs) "item_quantity" (.int 1) = .ok .null := by
      simp [pyGet, h]
    simp only [sanitizeBillItem, g, pyGet, pyErr_ok_bind]
    cases ha : pyFloat ((jLookup itemKvs "item_amount").getD (.int 0)) with
    | error e => simp [ha]
    | ok va =>
      cases hr : pyFloat ((jLookup itemKvs "item_rate").getD (.int 0)) with
      | error e => simp [ha, hr]
      | ok vr => simp [ha, hr, h, pyFloat]

/-- A page containing a null-field item raises while being processed. -/
theorem processPage_null_field (pageKvs : List (String × Json))
    (itemsJ : List Json) (itemKvs : List (String × Json)) (k : String)
    (h1 : jLookup pageKvs "bill_items" = some (.arr itemsJ))
    (h2 : (Json.obj itemKvs) ∈ itemsJ)
    (hk : k ∈ itemFields) (h3 : jLookup itemKvs k = some .null) :
    exOk (processPage (.obj pageKvs)) = false := by
  have g : pyGet (.obj pageKvs) "bill_items" (.arr []) = .ok (.arr itemsJ) := by
    simp [pyGet, h1]
  simp only [processPage, g, pyErr_ok_bind, pyIter]
  have hm := mapE_exOk_false_of_mem sanitizeBillItem (Json.obj itemKvs)
    (sanitize_null_field itemKvs k hk h3) itemsJ h2
  cases hmm : mapE sanitizeBillItem itemsJ with
  | error e => simp [hmm]
  | ok bs => rw [hmm] at hm; simp at hm

/-- A raw tree containing a null-field item in its page structure raises
during reconciliation. -/
theorem reconcile_null_field (kvs : List (String × Json)) (pagesJ : List Json)
    (pageKvs : List (String × Json)) (itemsJ : List Json)
    (itemKvs : List (String × Json)) (k : String)
    (h0 : jLookup kvs "pagewise_line_items" = some (.arr pagesJ))
    (h1 : (Json.obj pageKvs) ∈ pagesJ)
    (h2 : jLookup pageKvs "bill_items" = some (.arr itemsJ))
    (h3 : (Json.obj itemKvs) ∈ itemsJ)
    (hk : k ∈ itemFields) (h4 : jLookup itemKvs k = some .null) :
    exOk (reconcile (.obj kvs)) = false := by
  have g : pyGet (.obj kvs) "pagewise_line_items" (.arr []) = .ok (.arr pagesJ) := by
    simp [pyGet, h0]
  simp only [reconcile, g, pyErr_ok_bind, pyIter]
  have hm := mapE_exOk_false_of_mem processPage (Json.obj pageKvs)
    (processPage_null_field pageKvs itemsJ itemKvs k h2 h3 hk h4) pagesJ h1
  cases hmm : mapE processPage pagesJ with
  | error e => simp [hmm]
  | ok ps => rw [hmm] at hm; simp at hm

/-- C10: a raw tree containing an item whose `item_name`, `item_amount`,
`item_rate` or `item_quantity` key is present but bound to `null` makes
the whole request fail: the `null` is not treated like an absent key — it
reaches the `float` coercion or the pydantic validation, raises, and the
top-level handler returns an envelope with the success flag false. -/
theorem null_field_fails_request :
    ∀ (img : ImageBuf) (kvs : List (String × Json)) (pagesJ : List Json)
      (pageKvs : List (String × Json)) (itemsJ : List Json)
      (itemKvs : List (String × Json)) (k : String),
      jLookup kvs "pagewise_line_items" = some (.arr pagesJ) →
      (Json.obj pageKvs) ∈ pagesJ →
      jLookup pageKvs "bill_items" = some (.arr itemsJ) →
      (Json.obj itemKvs) ∈ itemsJ →
      k ∈ itemFields →
      jLookup itemKvs k = some .null →
      (extract_bill_data (.ok img) (.ok (.obj kvs))).is_success = false := by
  intro img kvs pagesJ pageKvs itemsJ itemKvs k h0 h1 h2 h3 hk h4
  have hrecOk := reconcile_null_field kvs pagesJ pageKvs itemsJ itemKvs k h0 h1 h2 h3 hk h4
  cases hrec : reconcile (.obj kvs) with
  | error e =>
    simp [extract_bill_data, download_image, get_gemini_extraction, hrec]
  | ok d => rw [hrec] at hrecOk; simp at hrecOk

/-- Witness for C10: an item with `item_amount` bound to `null` in an
otherwise normal tree makes the endpoint return a failure envelope. -/
theorem null_field_fails_request_witness :
    (extract_bill_data (.ok ⟨[]⟩) (.ok (.obj [("pagewise_line_items", .arr [
      .obj [("page_no", .str "1"), ("bill_items", .arr [
        .obj [("item_name", .str "Y"),
              ("item_amount", .null)]])]])]))).is_success = false :=
  null_field_fails_request ⟨[]⟩
    [("pagewise_line_items", .arr [
      .obj [("page_no", .str "1"), ("bill_items", .arr [
        .obj [("item_name", .str "Y"), ("item_amount", .null)]])]])]
    [.obj [("page_no", .str "1"), ("bill_items", .arr [
      .obj [("item_name", .str "Y"), ("item_amount", .null)]])]]
    [("page_no", .str "1"), ("bill_items", .arr [
      .obj [("item_name", .str "Y"), ("item_amount", .null)]])]
    [.obj [("item_name", .str "Y"), ("item_amount", .null)]]
    [("item_name", .str "Y"), ("item_amount", .null)]
    "item_amount"
    rfl (List.mem_singleton.mpr rfl) rfl (List.mem_singleton.mpr rfl)
    (by simp [itemFields]) rfl
